import Mathlib

/-!
Verification of the Monster Energy lead-capture backend (`src/app.py`,
`src/rag_utils.py`) against its natural-language specification.

The submission pipeline (`submit_application`, app.py lines 228-331) is
embedded as a pure function over an explicit environment describing the
outcomes of the external effects (the reCAPTCHA verification call, the
database commit, the SendGrid email send).  The Flask-Admin credential
check (`AuthenticatedModelView.is_accessible`, app.py lines 77-101) is
embedded with its base64 / UTF-8 decoding modelled at byte level.
-/

namespace MonsterApp

/-- A raw form submission: an association mapping of field name to string
value, looked up with first match winning (the behaviour of
`request.form.get`). -/
abbrev Form := List (String × String)

/-- Lookup `request.form.get key`: the first value bound to `key`, if any. -/
def Form.get : Form → String → Option String
  | [], _ => none
  | (k, v) :: rest, key => if k = key then some v else Form.get rest key

/-- The `Submission` database model (app.py lines 60-74).  The `id` and
`timestamp` columns are assigned by the database and carry no pipeline
logic, so they are omitted from the embedding. -/
structure Submission where
  full_name : String
  email : String
  phone : String
  contact_method : String
  address : String
  city : String
  state : String
  zip_code : String
  age_18_plus : Bool
deriving DecidableEq, Repr

/-- Outcome of the outbound reCAPTCHA verification request
(app.py lines 256-274):
* `netError` — `requests.post` raises a `RequestException`;
* `malformed` — the response body is not parseable JSON, so
  `recaptcha_req.json()` raises (`requests.exceptions.JSONDecodeError`,
  a `RequestException` subclass since requests 2.27, hence caught by the
  same handler as `netError`);
* `json success` — a parsed JSON body whose `success` field is `success`
  (an absent `success` key behaves as `false` via `.get`). -/
inductive CaptchaOutcome where
  | netError
  | malformed
  | json (success : Bool)
deriving DecidableEq, Repr

/-- Environment describing the outcomes of the external effects of one
`submit_application` invocation. -/
structure Env where
  captcha : CaptchaOutcome
  /-- True when `db.session.commit()` succeeds, assuming all NOT NULL columns are
  populated (disk / connection health). -/
  commitOk : Bool
  /-- the SendGrid `sg.send` call succeeds. -/
  emailOk : Bool
deriving DecidableEq, Repr

/-- The notifier channels named by the specification.  The source
(app.py lines 294-323) contains only the SendGrid email notifier; the
`chat` constructor exists so that statements about the ChatAlertNotifier of the specification can be expressed, and is never produced by the
embedding because no chat notifier exists in the code. -/
inductive NotifierKind where
  | email
  | chat
deriving DecidableEq, Repr

/-- The redirect returned to the caller: `url_for("index")` for every
rejection / error path, `url_for("thankyou_page")` on success. -/
inductive Redirect where
  | index
  | thankyou
deriving DecidableEq, Repr

/-- Observable result of one `submit_application` invocation: the final
database contents, the flashed `(message, category)` pairs, the notifier
invocations made, and the redirect target. -/
structure SubmitResult where
  db : List Submission
  flashes : List (String × String)
  notified : List NotifierKind
  redirect : Redirect
deriving DecidableEq, Repr

/-- Whether a result carries a user-facing error flash. -/
def hasErrorFlash (r : SubmitResult) : Bool :=
  r.flashes.any (fun f => f.2 == "error")

/-- All eight string columns of `Submission` are `nullable=False`
(app.py lines 62-69): committing a record built from a form missing one
of them raises an `IntegrityError` at `db.session.commit()`.  This
predicate says the commit is not doomed by a missing field. -/
def fieldsPresent (form : Form) : Bool :=
  (Form.get form "name").isSome && (Form.get form "email").isSome &&
  (Form.get form "phone").isSome && (Form.get form "contact_method").isSome &&
  (Form.get form "address").isSome && (Form.get form "city").isSome &&
  (Form.get form "state").isSome && (Form.get form "zip").isSome

/-- The `Submission(...)` record constructed at app.py lines 278-288:
each column receives the raw form value unchanged, and
`age_18_plus = (request.form.get("age") == "yes")` (line 239).  When a
required field is absent the record is never committed (see
`fieldsPresent`), so the `""` defaults are unobservable. -/
def mkRecord (form : Form) : Submission where
  full_name := (Form.get form "name").getD ""
  email := (Form.get form "email").getD ""
  phone := (Form.get form "phone").getD ""
  contact_method := (Form.get form "contact_method").getD ""
  address := (Form.get form "address").getD ""
  city := (Form.get form "city").getD ""
  state := (Form.get form "state").getD ""
  zip_code := (Form.get form "zip").getD ""
  age_18_plus := decide (Form.get form "age" = some "yes")

def missingTokenMsg : String := "Please complete the reCAPTCHA verification."
def captchaFailedMsg : String := "reCAPTCHA verification failed. Please try again."
def captchaUnavailableMsg : String := "reCAPTCHA service unavailable. Please try again later."
def serverErrorMsg : String :=
  "Your application could not be submitted due to a server error. Please try again."
def successMsg : String := "Your application has been submitted successfully!"
def emailWarnMsg : String :=
  "Failed to send confirmation email, but your application was submitted."

/-- Embedding of the `/submit` handler `submit_application`
(app.py lines 228-331) as a function of the external-effect environment,
the database contents before the request, and the raw form.

Control flow of the source, in order:
1. read the form fields (lines 231-240);
2. `if not recaptcha_response:` — missing or empty token is flashed as an
   error and redirected to the index page (lines 243-246);
3. the verification POST (lines 256-274): a `RequestException` (network
   failure, and JSON-decode failure of the response body) is flashed as
   `captchaUnavailableMsg`; a parsed body whose `success` is falsy is
   flashed as `captchaFailedMsg`; both redirect to the index page;
4. the record is added and committed (lines 278-290); a commit failure
   (including a NOT NULL violation from a missing field) propagates to
   the outer handler (lines 327-331), which rolls the session back,
   flashes `serverErrorMsg` and redirects to the index page;
5. on successful commit, `successMsg` is flashed, the single SendGrid
   email notifier is invoked (lines 294-320); its failure is caught,
   flashing `emailWarnMsg` (lines 321-323); either way the caller is
   redirected to the thank-you page (line 325). -/
def submit_application (env : Env) (db : List Submission) (form : Form) : SubmitResult :=
  if (Form.get form "g-recaptcha-response").getD "" = "" then
    { db := db, flashes := [(missingTokenMsg, "error")], notified := [], redirect := .index }
  else
    match env.captcha with
    | .netError =>
        { db := db, flashes := [(captchaUnavailableMsg, "error")],
          notified := [], redirect := .index }
    | .malformed =>
        { db := db, flashes := [(captchaUnavailableMsg, "error")],
          notified := [], redirect := .index }
    | .json success =>
        if success then
          if fieldsPresent form && env.commitOk then
            if env.emailOk then
              { db := db ++ [mkRecord form], flashes := [(successMsg, "success")],
                notified := [NotifierKind.email], redirect := .thankyou }
            else
              { db := db ++ [mkRecord form],
                flashes := [(successMsg, "success"), (emailWarnMsg, "warning")],
                notified := [NotifierKind.email], redirect := .thankyou }
          else
            { db := db, flashes := [(serverErrorMsg, "error")],
              notified := [], redirect := .index }
        else
          { db := db, flashes := [(captchaFailedMsg, "error")],
            notified := [], redirect := .index }

/-- On the fully successful path (non-empty token, verifier accepts, all
required columns present, commit succeeds) the handler appends exactly
the record of the form, invokes exactly the SendGrid email notifier, and
redirects to the thank-you page; the flashes depend only on whether the
email send succeeded. -/
lemma submit_good_path (env : Env) (db : List Submission) (form : Form) (t : String)
    (htok : Form.get form "g-recaptcha-response" = some t) (hne : t ≠ "")
    (hcap : env.captcha = CaptchaOutcome.json true)
    (hfp : fieldsPresent form = true) (hco : env.commitOk = true) :
    submit_application env db form =
      { db := db ++ [mkRecord form],
        flashes := if env.emailOk then [(successMsg, "success")]
                   else [(successMsg, "success"), (emailWarnMsg, "warning")],
        notified := [NotifierKind.email], redirect := .thankyou } := by
  cases he : env.emailOk <;>
    simp [submit_application, htok, hne, hcap, hfp, hco, he]

/-- Claim C3 (confirmed): for every submission that actually reaches the
outbound CAPTCHA verification (a non-empty token was supplied), each of
the three verification failure modes — the verifier returning
`success = false`, a network error on the outbound call, and a malformed
(unparseable) verifier response — yields a non-success outcome (an error
flash and a redirect back to the form page), with the database unchanged
and no notifier invoked: the gate fails closed. -/
theorem captcha_fail_closed (env : Env) (db : List Submission) (form : Form) (t : String)
    (htok : Form.get form "g-recaptcha-response" = some t) (hne : t ≠ "")
    (hfail : env.captcha = CaptchaOutcome.netError ∨ env.captcha = CaptchaOutcome.malformed ∨
             env.captcha = CaptchaOutcome.json false) :
    (submit_application env db form).redirect = Redirect.index ∧
    (submit_application env db form).db = db ∧
    (submit_application env db form).notified = [] ∧
    hasErrorFlash (submit_application env db form) = true := by
  rcases hfail with h | h | h <;>
    simp [submit_application, htok, hne, h, hasErrorFlash]

/-- Witness for `captcha_fail_closed`: a concrete network failure. -/
theorem captcha_fail_closed_witness :
    (submit_application ⟨CaptchaOutcome.netError, true, true⟩ []
        [("g-recaptcha-response", "tok")]).redirect = Redirect.index ∧
    (submit_application ⟨CaptchaOutcome.netError, true, true⟩ []
        [("g-recaptcha-response", "tok")]).db = [] ∧
    (submit_application ⟨CaptchaOutcome.netError, true, true⟩ []
        [("g-recaptcha-response", "tok")]).notified = [] ∧
    hasErrorFlash (submit_application ⟨CaptchaOutcome.netError, true, true⟩ []
        [("g-recaptcha-response", "tok")]) = true :=
  captcha_fail_closed _ _ _ "tok" rfl (by decide) (Or.inl rfl)

/-- Claim C4 (confirmed): when the persistence step fails — the commit
raises, or a NOT NULL column is unpopulated — the outer handler rolls
the session back (the database is unchanged), flashes the server-error
message, redirects to the form page, and never invokes a notifier. -/
theorem persistence_failure_fatal (env : Env) (db : List Submission) (form : Form) (t : String)
    (htok : Form.get form "g-recaptcha-response" = some t) (hne : t ≠ "")
    (hcap : env.captcha = CaptchaOutcome.json true)
    (hfail : fieldsPresent form = false ∨ env.commitOk = false) :
    (submit_application env db form).db = db ∧
    (submit_application env db form).notified = [] ∧
    (submit_application env db form).redirect = Redirect.index ∧
    (serverErrorMsg, "error") ∈ (submit_application env db form).flashes := by
  have hand : (fieldsPresent form && env.commitOk) = false := by
    rcases hfail with h | h <;> simp [h]
  simp [submit_application, htok, hne, hcap, hand]

/-- Witness for `persistence_failure_fatal`: a concrete commit failure. -/
theorem persistence_failure_fatal_witness :
    (submit_application ⟨CaptchaOutcome.json true, false, true⟩ []
        [("g-recaptcha-response", "tok")]).db = [] ∧
    (submit_application ⟨CaptchaOutcome.json true, false, true⟩ []
        [("g-recaptcha-response", "tok")]).notified = [] ∧
    (submit_application ⟨CaptchaOutcome.json true, false, true⟩ []
        [("g-recaptcha-response", "tok")]).redirect = Redirect.index ∧
    (serverErrorMsg, "error") ∈ (submit_application ⟨CaptchaOutcome.json true, false, true⟩ []
        [("g-recaptcha-response", "tok")]).flashes :=
  persistence_failure_fatal _ _ _ "tok" rfl (by decide) rfl (Or.inr rfl)

/-- Claim C9 (confirmed): whatever record the handler persists has its
consent / age boolean set exactly when the raw `age` field is the
literal string `"yes"`; any other value, including an absent field,
yields `false` (app.py line 239). -/
theorem consent_yes_sentinel (env : Env) (db : List Submission) (form : Form)
    (rec : Submission) (h : (submit_application env db form).db = db ++ [rec]) :
    rec.age_18_plus = true ↔ Form.get form "age" = some "yes" := by
  by_cases h1 : (Form.get form "g-recaptcha-response").getD "" = ""
  · simp [submit_application, h1] at h
  · cases hc : env.captcha with
    | netError => simp [submit_application, h1, hc] at h
    | malformed => simp [submit_application, h1, hc] at h
    | json success =>
        cases success with
        | false => simp [submit_application, h1, hc] at h
        | true =>
            cases hfc : fieldsPresent form && env.commitOk with
            | false => simp [submit_application, h1, hc, hfc] at h
            | true =>
                cases he : env.emailOk <;>
                  · simp [submit_application, h1, hc, hfc, he] at h
                    subst h
                    simp [mkRecord]

/-- Witness for `consent_yes_sentinel`: a concrete persisted record. -/
theorem consent_yes_sentinel_witness :
    (mkRecord [("name", "Jane Doe"), ("email", "jane@example.com"), ("phone", "555"),
        ("contact_method", "email"), ("address", "1 Main St"), ("city", "Springfield"),
        ("state", "IL"), ("zip", "62704"), ("age", "yes"),
        ("g-recaptcha-response", "tok")]).age_18_plus = true ↔
    Form.get [("name", "Jane Doe"), ("email", "jane@example.com"), ("phone", "555"),
        ("contact_method", "email"), ("address", "1 Main St"), ("city", "Springfield"),
        ("state", "IL"), ("zip", "62704"), ("age", "yes"),
        ("g-recaptcha-response", "tok")] "age" = some "yes" :=
  consent_yes_sentinel ⟨CaptchaOutcome.json true, true, true⟩ [] _ _ (by decide)

/-- A complete, well-formed example form (the end-to-end Jane Doe scenario of the spec,
with the email already lowercase). -/
def janeForm : Form :=
  [("name", "Jane Doe"), ("email", "jane@example.com"), ("phone", "555"),
   ("contact_method", "email"), ("address", "1 Main St"), ("city", "Springfield"),
   ("state", "IL"), ("zip", "62704"), ("age", "yes"), ("g-recaptcha-response", "tok")]

/-- Environment where every external effect succeeds. -/
def allOkEnv : Env := ⟨CaptchaOutcome.json true, true, true⟩

/-- Claim C1 (corrected): counterexample to the duplicate-email claim.
Submitting the identical form twice persists two records with the same
email, and the second submission still invokes the email notifier — the
handler has no duplicate guard, so the second submission does not stop
before persistence. -/
theorem duplicate_email_counterexample :
    (submit_application allOkEnv (submit_application allOkEnv [] janeForm).db
        janeForm).db.map Submission.email = ["jane@example.com", "jane@example.com"] ∧
    (submit_application allOkEnv (submit_application allOkEnv [] janeForm).db
        janeForm).notified = [NotifierKind.email] := by
  decide

/-- Claim C1 (amended): the handler performs no duplicate check — even
when the database already holds a record with the submitted email, a
valid submission is persisted as an additional record, the email
notifier is invoked, and the caller receives the success redirect. -/
theorem duplicate_not_guarded (env : Env) (db : List Submission) (form : Form) (t e : String)
    (htok : Form.get form "g-recaptcha-response" = some t) (hne : t ≠ "")
    (hcap : env.captcha = CaptchaOutcome.json true)
    (hfp : fieldsPresent form = true) (hco : env.commitOk = true)
    (_hmail : Form.get form "email" = some e)
    (_hdup : ∃ s ∈ db, s.email = e) :
    (submit_application env db form).db = db ++ [mkRecord form] ∧
    (submit_application env db form).notified = [NotifierKind.email] ∧
    (submit_application env db form).redirect = Redirect.thankyou := by
  rw [submit_good_path env db form t htok hne hcap hfp hco]
  exact ⟨rfl, rfl, rfl⟩

/-- Witness for `duplicate_not_guarded`: a database that already holds
the Jane Doe record still accepts the same form again. -/
theorem duplicate_not_guarded_witness :
    (submit_application allOkEnv [mkRecord janeForm] janeForm).db
        = [mkRecord janeForm] ++ [mkRecord janeForm] ∧
    (submit_application allOkEnv [mkRecord janeForm] janeForm).notified
        = [NotifierKind.email] ∧
    (submit_application allOkEnv [mkRecord janeForm] janeForm).redirect
        = Redirect.thankyou :=
  duplicate_not_guarded allOkEnv [mkRecord janeForm] janeForm "tok" "jane@example.com"
    rfl (by decide) rfl (by decide) rfl rfl ⟨mkRecord janeForm, by decide, by decide⟩

/-- The Jane Doe form with a non-empty hidden honeypot field, the silent-rejection scenario of the spec. -/
def honeypotForm : Form := ("honeypot", "http://spam") :: janeForm

/-- Claim C2 (corrected): counterexample to the honeypot claim.  The
handler never reads a honeypot field: with the honeypot set to
`"http://spam"` and everything else valid, one record is persisted and
the email notifier is invoked — not the claimed zero records and zero
notifier invocations. -/
theorem honeypot_counterexample :
    Form.get honeypotForm "honeypot" = some "http://spam" ∧
    (submit_application allOkEnv [] honeypotForm).db.length = 1 ∧
    (submit_application allOkEnv [] honeypotForm).notified = [NotifierKind.email] := by
  decide

/-- Claim C2 (amended): the handler contains no honeypot check — a
submission whose honeypot field is non-empty is processed exactly like
any other: with the captcha passing and the commit succeeding, the
record is persisted, the email notifier is invoked, and the caller
receives the (non-silent) success redirect. -/
theorem honeypot_ignored (env : Env) (db : List Submission) (form : Form) (t hp : String)
    (_hhp : Form.get form "honeypot" = some hp) (_hpne : hp ≠ "")
    (htok : Form.get form "g-recaptcha-response" = some t) (hne : t ≠ "")
    (hcap : env.captcha = CaptchaOutcome.json true)
    (hfp : fieldsPresent form = true) (hco : env.commitOk = true) :
    (submit_application env db form).db = db ++ [mkRecord form] ∧
    (submit_application env db form).notified = [NotifierKind.email] ∧
    (submit_application env db form).redirect = Redirect.thankyou := by
  rw [submit_good_path env db form t htok hne hcap hfp hco]
  exact ⟨rfl, rfl, rfl⟩

/-- Witness for `honeypot_ignored`. -/
theorem honeypot_ignored_witness :
    (submit_application allOkEnv [] honeypotForm).db = [] ++ [mkRecord honeypotForm] ∧
    (submit_application allOkEnv [] honeypotForm).notified = [NotifierKind.email] ∧
    (submit_application allOkEnv [] honeypotForm).redirect = Redirect.thankyou :=
  honeypot_ignored allOkEnv [] honeypotForm "tok" "http://spam"
    rfl (by decide) rfl (by decide) rfl (by decide) rfl

/-- Environment where the SendGrid send fails but everything else
succeeds. -/
def emailFailEnv : Env := ⟨CaptchaOutcome.json true, true, false⟩

/-- Claim C5 (corrected): counterexample to the chat-notifier half of
the claim.  With persistence succeeding and the email send failing, the
submission is persisted and reported successful, but no ChatAlertNotifier
is invoked — no chat notifier exists in the code at all. -/
theorem chat_notifier_counterexample :
    (submit_application emailFailEnv [] janeForm).db.length = 1 ∧
    (submit_application emailFailEnv [] janeForm).redirect = Redirect.thankyou ∧
    ¬ (NotifierKind.chat ∈ (submit_application emailFailEnv [] janeForm).notified) := by
  decide

/-- Claim C5 (amended): after a successful commit, a failure of the
SendGrid email send is caught and does not propagate — the stored record
is unchanged, a warning flash is added, and the caller still receives
the success redirect.  The code has no chat alert notifier, so none is
invoked. -/
theorem email_failure_isolated (env : Env) (db : List Submission) (form : Form) (t : String)
    (htok : Form.get form "g-recaptcha-response" = some t) (hne : t ≠ "")
    (hcap : env.captcha = CaptchaOutcome.json true)
    (hfp : fieldsPresent form = true) (hco : env.commitOk = true)
    (hmail : env.emailOk = false) :
    (submit_application env db form).db = db ++ [mkRecord form] ∧
    (submit_application env db form).redirect = Redirect.thankyou ∧
    (emailWarnMsg, "warning") ∈ (submit_application env db form).flashes ∧
    ¬ (NotifierKind.chat ∈ (submit_application env db form).notified) := by
  rw [submit_good_path env db form t htok hne hcap hfp hco]
  simp [hmail]

/-- Witness for `email_failure_isolated`. -/
theorem email_failure_isolated_witness :
    (submit_application emailFailEnv [] janeForm).db = [] ++ [mkRecord janeForm] ∧
    (submit_application emailFailEnv [] janeForm).redirect = Redirect.thankyou ∧
    (emailWarnMsg, "warning") ∈ (submit_application emailFailEnv [] janeForm).flashes ∧
    ¬ (NotifierKind.chat ∈ (submit_application emailFailEnv [] janeForm).notified) :=
  email_failure_isolated emailFailEnv [] janeForm "tok"
    rfl (by decide) rfl (by decide) rfl rfl

/-- The Jane Doe form with the mixed-case raw email input of the spec. -/
def upperCaseEmailForm : Form :=
  [("name", "Jane Doe"), ("email", "JANE@Example.com"), ("phone", "555"),
   ("contact_method", "email"), ("address", "1 Main St"), ("city", "Springfield"),
   ("state", "IL"), ("zip", "62704"), ("age", "yes"), ("g-recaptcha-response", "tok")]

/-- Claim C6 (corrected): counterexample to the normalization claim.
The raw input `"JANE@Example.com"` is persisted exactly as submitted,
not lowercased to `"jane@example.com"`. -/
theorem email_not_normalized_counterexample :
    (submit_application allOkEnv [] upperCaseEmailForm).db.map Submission.email
        = ["JANE@Example.com"] ∧
    ¬ ("JANE@Example.com" = "jane@example.com") := by
  decide

/-- Claim C6 (amended): the handler performs no normalization — the
email of the persisted record equals the raw input string exactly, with no
lowercasing and no trimming of surrounding whitespace. -/
theorem email_stored_verbatim (env : Env) (db : List Submission) (form : Form) (t e : String)
    (htok : Form.get form "g-recaptcha-response" = some t) (hne : t ≠ "")
    (hcap : env.captcha = CaptchaOutcome.json true)
    (hfp : fieldsPresent form = true) (hco : env.commitOk = true)
    (hmail : Form.get form "email" = some e) :
    (submit_application env db form).db = db ++ [mkRecord form] ∧
    (mkRecord form).email = e := by
  rw [submit_good_path env db form t htok hne hcap hfp hco]
  exact ⟨rfl, by simp [mkRecord, hmail]⟩

/-- Witness for `email_stored_verbatim`. -/
theorem email_stored_verbatim_witness :
    (submit_application allOkEnv [] upperCaseEmailForm).db
        = [] ++ [mkRecord upperCaseEmailForm] ∧
    (mkRecord upperCaseEmailForm).email = "JANE@Example.com" :=
  email_stored_verbatim allOkEnv [] upperCaseEmailForm "tok" "JANE@Example.com"
    rfl (by decide) rfl (by decide) rfl rfl

/-- A character allowed in the local part of the email shape of the spec:
letters, digits, or one of `._%+-`. -/
def isLocalChar (c : Char) : Bool :=
  c.isAlphanum || c = '.' || c = '_' || c = '%' || c = '+' || c = '-'

/-- A character allowed in a non-final domain label: letters, digits, or
a hyphen. -/
def isDomainChar (c : Char) : Bool :=
  c.isAlphanum || c = '-'

/-- Modelled from the spec: the `local@domain.tld` email shape that the ValidationStage
of the spec requires (no such check exists in src/).  The
local part is a non-empty run of `isLocalChar` characters, the domain is
a dot-separated sequence of at least two non-empty labels, and the final
label (the TLD) consists of two or more letters. -/
def emailShapeValid (e : String) : Bool :=
  match e.data.splitOn '@' with
  | [loc, domain] =>
      let labels := domain.splitOn '.'
      (loc ≠ [] && loc.all isLocalChar) &&
      decide (2 ≤ labels.length) &&
      labels.all (fun l => l ≠ [] && l.all isDomainChar) &&
      (match labels.getLast? with
       | some tld => decide (2 ≤ tld.length) && tld.all Char.isAlpha
       | none => false)
  | _ => false

/-- The Jane Doe form with the invalid email value of the spec. -/
def badEmailForm : Form :=
  [("name", "Jane Doe"), ("email", "not-an-email"), ("phone", "555"),
   ("contact_method", "email"), ("address", "1 Main St"), ("city", "Springfield"),
   ("state", "IL"), ("zip", "62704"), ("age", "yes"), ("g-recaptcha-response", "tok")]

/-- Claim C7 (corrected): counterexample to the email-format claim.
`"not-an-email"` fails the shape required by the spec, yet the submission is persisted
and answered with the success redirect and no error flash — the handler
performs no email validation at all. -/
theorem email_format_counterexample :
    emailShapeValid "not-an-email" = false ∧
    (submit_application allOkEnv [] badEmailForm).db.length = 1 ∧
    (submit_application allOkEnv [] badEmailForm).redirect = Redirect.thankyou ∧
    hasErrorFlash (submit_application allOkEnv [] badEmailForm) = false := by
  decide

/-- Claim C7 (amended): no email-format validation is performed — a
submission whose email fails the `local@domain.tld` shape is processed
like any other: with the captcha passing and the commit succeeding, the
record is persisted with that email and the caller receives the success
redirect with no error flash. -/
theorem email_format_not_validated (env : Env) (db : List Submission) (form : Form)
    (t e : String)
    (hmail : Form.get form "email" = some e) (_hshape : emailShapeValid e = false)
    (htok : Form.get form "g-recaptcha-response" = some t) (hne : t ≠ "")
    (hcap : env.captcha = CaptchaOutcome.json true)
    (hfp : fieldsPresent form = true) (hco : env.commitOk = true) :
    (submit_application env db form).db = db ++ [mkRecord form] ∧
    (mkRecord form).email = e ∧
    (submit_application env db form).redirect = Redirect.thankyou ∧
    hasErrorFlash (submit_application env db form) = false := by
  rw [submit_good_path env db form t htok hne hcap hfp hco]
  refine ⟨rfl, by simp [mkRecord, hmail], rfl, ?_⟩
  cases he : env.emailOk <;> simp [hasErrorFlash, he, successMsg, emailWarnMsg]

/-- Witness for `email_format_not_validated`. -/
theorem email_format_not_validated_witness :
    (submit_application allOkEnv [] badEmailForm).db = [] ++ [mkRecord badEmailForm] ∧
    (mkRecord badEmailForm).email = "not-an-email" ∧
    (submit_application allOkEnv [] badEmailForm).redirect = Redirect.thankyou ∧
    hasErrorFlash (submit_application allOkEnv [] badEmailForm) = false :=
  email_format_not_validated allOkEnv [] badEmailForm "tok" "not-an-email"
    rfl (by decide) rfl (by decide) rfl (by decide) rfl

/-- Split a character list at the first occurrence of `sep`: `some (a, b)`
with the input equal to `a ++ sep :: b` and `sep ∉ a`, or `none` when
`sep` does not occur. -/
def splitFirst (sep : Char) : List Char → Option (List Char × List Char)
  | [] => none
  | c :: cs =>
    if c = sep then some ([], cs)
    else
      match splitFirst sep cs with
      | none => none
      | some (a, b) => some (c :: a, b)

lemma splitFirst_eq_none_iff (sep : Char) (cs : List Char) :
    splitFirst sep cs = none ↔ sep ∉ cs := by
  induction cs with
  | nil => simp [splitFirst]
  | cons c cs ih =>
    by_cases hc : c = sep
    · subst hc; simp [splitFirst]
    · have hcs : ¬ sep = c := fun h => hc h.symm
      cases hs : splitFirst sep cs with
      | none =>
          have hmem : sep ∉ cs := ih.mp hs
          simp [splitFirst, if_neg hc, hs, List.mem_cons, hmem, hcs]
      | some ab =>
          have hmem : sep ∈ cs := by
            by_contra hmem
            have h2 := ih.mpr hmem
            rw [hs] at h2
            exact absurd h2 (by simp)
          simp [splitFirst, if_neg hc, hs, List.mem_cons, hmem]

lemma splitFirst_eq_some_iff (sep : Char) (cs : List Char) : ∀ (a b : List Char),
    splitFirst sep cs = some (a, b) ↔ (cs = a ++ sep :: b ∧ sep ∉ a) := by
  induction cs with
  | nil =>
    intro a b
    constructor
    · intro h; exact absurd h (by simp [splitFirst])
    · rintro ⟨heq, -⟩
      exact absurd heq (by cases a <;> simp)
  | cons c cs ih =>
    intro a b
    by_cases hc : c = sep
    · subst hc
      simp only [splitFirst, if_pos rfl]
      constructor
      · intro h
        simp only [Option.some.injEq, Prod.mk.injEq] at h
        obtain ⟨rfl, rfl⟩ := h
        exact ⟨rfl, by simp⟩
      · rintro ⟨heq, hmem⟩
        cases a with
        | nil =>
            simp only [List.nil_append, List.cons.injEq] at heq
            simp [heq.2]
        | cons a0 a' =>
            exfalso
            simp only [List.cons_append, List.cons.injEq] at heq
            exact hmem (by rw [heq.1]; exact List.mem_cons_self a0 a')
    · simp only [splitFirst, if_neg hc]
      cases hs : splitFirst sep cs with
      | none =>
        have hmem : sep ∉ cs := (splitFirst_eq_none_iff sep cs).mp hs
        constructor
        · intro h; exact absurd h (by simp)
        · rintro ⟨heq, -⟩
          exfalso
          cases a with
          | nil =>
              simp only [List.nil_append, List.cons.injEq] at heq
              exact hc heq.1
          | cons a0 a' =>
              simp only [List.cons_append, List.cons.injEq] at heq
              exact hmem (by rw [heq.2]; exact List.mem_append_right a' (List.mem_cons_self sep b))
      | some ab =>
        obtain ⟨a', b'⟩ := ab
        have hch := (ih a' b').mp hs
        constructor
        · intro h
          simp only [Option.some.injEq, Prod.mk.injEq] at h
          obtain ⟨rfl, rfl⟩ := h
          refine ⟨by simp [hch.1], ?_⟩
          intro hm
          rcases List.mem_cons.mp hm with h1 | h1
          · exact hc h1.symm
          · exact hch.2 h1
        · rintro ⟨heq, hnmem⟩
          cases a with
          | nil =>
              exfalso
              simp only [List.nil_append, List.cons.injEq] at heq
              exact hc heq.1
          | cons a0 a'' =>
              simp only [List.cons_append, List.cons.injEq] at heq
              have hm : sep ∉ a'' := fun h => hnmem (List.mem_cons_of_mem _ h)
              have h3 := (ih a'' b).mpr ⟨heq.2, hm⟩
              rw [hs] at h3
              simp only [Option.some.injEq, Prod.mk.injEq] at h3
              simp [heq.1, h3.1, h3.2]

/-- Split a character list at the last occurrence of `sep` (via the
first occurrence in the reversal). -/
def splitLast (sep : Char) (cs : List Char) : Option (List Char × List Char) :=
  match splitFirst sep cs.reverse with
  | none => none
  | some (a, b) => some (b.reverse, a.reverse)

/-- The opening and closing spintax delimiters, written numerically. -/
def lbrace : Char := Char.ofNat 123
def rbrace : Char := Char.ofNat 125

/-- Modelled from the spec: locate the first innermost alternation group
of the SpintaxEngine described by the spec (absent from src/) — the segment between the
last opening brace preceding the first closing brace.  Returns
`(prefix, group content, suffix)`, or `none` when no balanced group
exists (no closing brace, or no opening brace before the first closing
brace). -/
def findGroup (cs : List Char) : Option (List Char × List Char × List Char) :=
  match splitFirst rbrace cs with
  | none => none
  | some (before, post) =>
    match splitLast lbrace before with
    | none => none
    | some (pre, content) => some (pre, content, post)

/-- Split into `|`-separated options; always returns at least one
(possibly empty) option. -/
def splitOptions : List Char → List (List Char)
  | [] => [[]]
  | c :: cs =>
    let r := splitOptions cs
    if c = '|' then [] :: r
    else
      match r with
      | [] => [[c]]
      | h :: t => (c :: h) :: t

/-- Modelled from the spec: one rewrite step of the SpintaxEngine —
resolve the first innermost group by replacing it (braces included) with
the option selected by the `i`-th draw of the randomness source. -/
def renderStep (rng : Nat → Nat) (i : Nat) (cs : List Char) : Option (List Char) :=
  match findGroup cs with
  | none => none
  | some (pre, content, post) =>
    let options := splitOptions content
    some (pre ++ options.getD (rng i % options.length) [] ++ post)

/-- Fuelled resolution loop: each successful step removes the two brace
characters of the resolved group, so the text shrinks by at least two
characters per step and `text.length` units of fuel always suffice; the
loop also stops as soon as no balanced group remains (a stray brace is
left intact). -/
def renderGo (rng : Nat → Nat) : Nat → Nat → List Char → List Char
  | 0, _, cs => cs
  | fuel + 1, i, cs =>
    match renderStep rng i cs with
    | none => cs
    | some cs2 => renderGo rng fuel (i + 1) cs2

/-- Modelled from the spec: `SpintaxEngine.Render(text, rng)` — repeatedly
resolve the first innermost alternation group with a uniformly drawn
option until no balanced group remains.  The randomness source is a
stream of draws; the `i`-th draw selects option `rng i % n` among the
`n` options of the group. -/
def Render (text : String) (rng : Nat → Nat) : String :=
  String.mk (renderGo rng text.data.length 0 text.data)

lemma findGroup_eq_none (cs : List Char) (h : lbrace ∉ cs) : findGroup cs = none := by
  cases hf : splitFirst rbrace cs with
  | none => simp [findGroup, hf]
  | some bp =>
    obtain ⟨before, post⟩ := bp
    have hchar := (splitFirst_eq_some_iff rbrace cs before post).mp hf
    have hnb : lbrace ∉ before := fun hm => h (hchar.1 ▸ List.mem_append_left _ hm)
    have hrev : splitFirst lbrace before.reverse = none := by
      rw [splitFirst_eq_none_iff]
      simpa using hnb
    simp [findGroup, hf, splitLast, hrev]

lemma renderGo_of_no_group (rng : Nat → Nat) (fuel i : Nat) (cs : List Char)
    (h : findGroup cs = none) : renderGo rng fuel i cs = cs := by
  cases fuel with
  | zero => rfl
  | succ n => simp [renderGo, renderStep, h]

/-- Claim C8 (confirmed, modelled from the spec): for every input string
containing no opening brace and every randomness source, `Render`
returns the input unchanged. -/
theorem spintax_no_brace_id (s : String) (rng : Nat → Nat) (h : lbrace ∉ s.data) :
    Render s rng = s := by
  rw [Render, renderGo_of_no_group rng s.data.length 0 s.data (findGroup_eq_none s.data h)]

/-- Witness for `spintax_no_brace_id`. -/
theorem spintax_no_brace_id_witness :
    Render "Hello, Monster Energy!" (fun _ => 0) = "Hello, Monster Energy!" :=
  spintax_no_brace_id "Hello, Monster Energy!" (fun _ => 0) (by decide)

/-- Sanity check that the engine does resolve groups: with a randomness
source that always draws 0, the two-option group picks its first option,
and with draws of 1 its second. -/
theorem spintax_resolves_example :
    Render "pick \x7ba|b\x7d now" (fun _ => 0) = "pick a now" ∧
    Render "pick \x7ba|b\x7d now" (fun _ => 1) = "pick b now" := by
  constructor <;> rfl

/-- The whitespace characters of the Python `str.split(None, ...)` call (the
ASCII ones; the Unicode space characters Python also accepts cannot
occur in an HTTP header value). -/
def isPySpace (c : Char) : Bool :=
  c = ' ' || c = '\t' || c = '\n' || c = '\r' || c = Char.ofNat 11 || c = Char.ofNat 12

/-- Model of `auth_header.split(None, 1)` followed by unpacking into exactly two
variables (app.py line 86): leading whitespace is discarded, the first
whitespace-free run is the first part, the remainder after the
separating whitespace run is the second; fewer than two parts raises a
`ValueError` (modelled as `none`, caught by the except clause of the handler). -/
def pySplitWs1 (s : String) : Option (String × String) :=
  let cs := s.data.dropWhile isPySpace
  let tok := cs.takeWhile (fun c => !(isPySpace c))
  let rest := (cs.dropWhile (fun c => !(isPySpace c))).dropWhile isPySpace
  if tok = [] then none
  else if rest = [] then none
  else some (String.mk tok, String.mk rest)

/-- Value of a standard base64 alphabet character. -/
def b64Val (c : Char) : Option Nat :=
  if 'A' ≤ c && c ≤ 'Z' then some (c.toNat - 65)
  else if 'a' ≤ c && c ≤ 'z' then some (c.toNat - 97 + 26)
  else if '0' ≤ c && c ≤ '9' then some (c.toNat - 48 + 52)
  else if c = '+' then some 62
  else if c = '/' then some 63
  else none

/-- Bytes emitted for an incomplete final quad when padding completes it:
two sextets (12 bits) yield one byte, three sextets (18 bits) two. -/
def flushQuad (quadPos quadVal : Nat) : List Nat :=
  if quadPos = 2 then [quadVal / 16]
  else if quadPos = 3 then [quadVal / 1024, quadVal / 4 % 256]
  else []

/-- Core of the CPython `binascii.a2b_base64` routine in its default non-strict
mode: characters outside the alphabet are discarded; a `=` is ignored
until at least two sextets of the current quad have been read, and once
enough padding accumulates the leftover bytes are emitted and the rest
of the input is ignored; input ending with a partial quad and
insufficient padding raises `binascii.Error` (modelled as `none`). -/
def a2bAux : List Char → Nat → Nat → Nat → List Nat → Option (List Nat)
  | [], quadPos, _, _, acc => if quadPos = 0 then some acc else none
  | c :: rest, quadPos, quadVal, pads, acc =>
    if c = '=' then
      if 2 ≤ quadPos then
        if 4 ≤ quadPos + (pads + 1) then some (acc ++ flushQuad quadPos quadVal)
        else a2bAux rest quadPos quadVal (pads + 1) acc
      else a2bAux rest quadPos quadVal pads acc
    else
      match b64Val c with
      | none => a2bAux rest quadPos quadVal pads acc
      | some v =>
        if quadPos = 3 then
          a2bAux rest 0 0 0
            (acc ++ [(quadVal * 64 + v) / 65536, (quadVal * 64 + v) / 256 % 256,
                     (quadVal * 64 + v) % 256])
        else a2bAux rest (quadPos + 1) (quadVal * 64 + v) 0 acc

/-- Model of `base64.b64decode(credentials)` on a `str` argument (app.py line 89):
the string is first encoded as ASCII (`ValueError` on a non-ASCII
character), then decoded by `binascii.a2b_base64` in non-strict mode. -/
def base64DecodePy (s : String) : Option (List Nat) :=
  if s.data.any (fun c => 128 ≤ c.toNat) then none
  else a2bAux s.data 0 0 0 []

/-- A UTF-8 continuation byte. -/
def isCont (b : Nat) : Bool := 128 ≤ b && b < 192

/-- Strict UTF-8 decoding of a byte list (the Python call `bytes.decode("utf-8")`):
rejects stray continuation bytes, overlong encodings, surrogate code
points and code points beyond U+10FFFF (modelled as `none`, the
`UnicodeDecodeError` being caught by the except clause of the handler). -/
def utf8Decode : List Nat → Option (List Char)
  | [] => some []
  | b :: bs =>
    if b < 128 then
      match utf8Decode bs with
      | none => none
      | some cs => some (Char.ofNat b :: cs)
    else if b < 194 then none
    else if b < 224 then
      match bs with
      | b1 :: rest =>
        if isCont b1 then
          match utf8Decode rest with
          | none => none
          | some cs => some (Char.ofNat ((b - 192) * 64 + (b1 - 128)) :: cs)
        else none
      | [] => none
    else if b < 240 then
      match bs with
      | b1 :: b2 :: rest =>
        if isCont b1 && isCont b2 then
          if 2048 ≤ (b - 224) * 4096 + (b1 - 128) * 64 + (b2 - 128) &&
             !(55296 ≤ (b - 224) * 4096 + (b1 - 128) * 64 + (b2 - 128) &&
               (b - 224) * 4096 + (b1 - 128) * 64 + (b2 - 128) < 57344) then
            match utf8Decode rest with
            | none => none
            | some cs =>
                some (Char.ofNat ((b - 224) * 4096 + (b1 - 128) * 64 + (b2 - 128)) :: cs)
          else none
        else none
      | _ => none
    else if b < 245 then
      match bs with
      | b1 :: b2 :: b3 :: rest =>
        if isCont b1 && isCont b2 && isCont b3 then
          if 65536 ≤ (b - 240) * 262144 + (b1 - 128) * 4096 + (b2 - 128) * 64 + (b3 - 128) &&
             (b - 240) * 262144 + (b1 - 128) * 4096 + (b2 - 128) * 64 + (b3 - 128) ≤ 1114111 then
            match utf8Decode rest with
            | none => none
            | some cs =>
                some (Char.ofNat
                  ((b - 240) * 262144 + (b1 - 128) * 4096 + (b2 - 128) * 64 + (b3 - 128)) :: cs)
          else none
        else none
      | _ => none
    else none

/-- Composition of base64 decoding and UTF-8 decoding (app.py line 89):
`none` when either step raises. -/
def b64utf8 (s : String) : Option String :=
  match base64DecodePy s with
  | none => none
  | some bytes =>
    match utf8Decode bytes with
    | none => none
    | some cs => some (String.mk cs)

/-- Model of `decoded.split(":", 1)` unpacked into exactly two variables
(app.py line 89): `none` (a `ValueError`, caught) when the decoded
string holds no colon. -/
def splitColon1 (s : String) : Option (String × String) :=
  match splitFirst ':' s.data with
  | none => none
  | some (u, p) => some (String.mk u, String.mk p)

/-- The Python `str.lower()` method restricted to its ASCII action (sufficient
here: the only comparison made with the result is against `"basic"`). -/
def lowerStr (s : String) : String := String.mk (s.data.map Char.toLower)

/-- The two configured secrets `ADMIN_USERNAME` / `ADMIN_PASSWORD`. -/
structure AdminConfig where
  username : String
  password : String

/-- Embedding of `AuthenticatedModelView.is_accessible`
(app.py lines 78-101): grant access only when an Authorization header is
present and non-empty, splits into a scheme and credentials, the scheme
case-insensitively equals `basic`, the credentials base64-decode to an
UTF-8 string containing a colon, and the parts before and after the
first colon equal the configured username and password.  Every parsing
failure is caught by the `except` clause and every non-granting path
falls through to `return False`; the function can never raise. -/
def is_accessible (cfg : AdminConfig) (authHeader : Option String) : Bool :=
  match authHeader with
  | none => false
  | some h =>
    if h = "" then false
    else
      match pySplitWs1 h with
      | none => false
      | some (authType, credentials) =>
        if lowerStr authType = "basic" then
          match b64utf8 credentials with
          | none => false
          | some decoded =>
            match splitColon1 decoded with
            | none => false
            | some (username, password) =>
              username == cfg.username && password == cfg.password
        else false

/-- The admin access rule as the claim states it: the request carries an
Authorization header whose scheme is (case-insensitively) Basic and
whose credentials decode — base64, then UTF-8 — to
`username : password`, where the username is the colon-free part before
the first colon, and both parts equal the configured secrets. -/
def basicAuthGrants (cfg : AdminConfig) (authHeader : Option String) : Prop :=
  ∃ h scheme creds decoded,
    authHeader = some h ∧
    pySplitWs1 h = some (scheme, creds) ∧
    lowerStr scheme = "basic" ∧
    b64utf8 creds = some decoded ∧
    ∃ u p : List Char,
      ':' ∉ u ∧ decoded.data = u ++ ':' :: p ∧
      String.mk u = cfg.username ∧ String.mk p = cfg.password

/-- Claim C10 (confirmed): the admin view grants access exactly when the
request carries a Basic Authorization header decoding to the two
configured secrets; a missing, non-Basic or malformed header is denied
(the embedding is a total function — no execution path raises). -/
theorem admin_auth_iff (cfg : AdminConfig) (ah : Option String) :
    is_accessible cfg ah = true ↔ basicAuthGrants cfg ah := by
  cases ah with
  | none => simp [is_accessible, basicAuthGrants]
  | some h =>
    by_cases h0 : h = ""
    · subst h0
      have hsp : pySplitWs1 "" = none := rfl
      simp [is_accessible, basicAuthGrants, hsp]
    · cases hsp : pySplitWs1 h with
      | none => simp [is_accessible, h0, basicAuthGrants, hsp]
      | some tc =>
        obtain ⟨scheme, creds⟩ := tc
        by_cases hb : lowerStr scheme = "basic"
        · cases hd : b64utf8 creds with
          | none =>
            have hacc : is_accessible cfg (some h) = false := by
              simp [is_accessible, h0, hsp, hb, hd]
            rw [hacc]
            constructor
            · intro hfalse; exact absurd hfalse (by simp)
            · rintro ⟨h', s', c', d', hh, hsp', hb', hd', -⟩
              exfalso
              injection hh with hh; subst hh
              rw [hsp] at hsp'; injection hsp' with hsp'; injection hsp' with h1 h2
              subst h1; subst h2
              rw [hd] at hd'
              exact absurd hd' (by simp)
          | some decoded =>
            cases hcc : splitFirst ':' decoded.data with
            | none =>
              have hcol : splitColon1 decoded = none := by simp [splitColon1, hcc]
              have hacc : is_accessible cfg (some h) = false := by
                simp [is_accessible, h0, hsp, hb, hd, hcol]
              have hnc : (':' : Char) ∉ decoded.data := (splitFirst_eq_none_iff _ _).mp hcc
              rw [hacc]
              constructor
              · intro hfalse; exact absurd hfalse (by simp)
              · rintro ⟨h', s', c', d', hh, hsp', hb', hd', u, p, hu, hdata, -, -⟩
                exfalso
                injection hh with hh; subst hh
                rw [hsp] at hsp'; injection hsp' with hsp'; injection hsp' with h1 h2
                subst h1; subst h2
                rw [hd] at hd'; injection hd' with hd'; subst hd'
                exact hnc (hdata ▸ List.mem_append_right u (List.mem_cons_self ':' p))
            | some ab =>
              obtain ⟨a, b⟩ := ab
              have hcol : splitColon1 decoded = some (String.mk a, String.mk b) := by
                simp [splitColon1, hcc]
              have hacc : is_accessible cfg (some h)
                  = (String.mk a == cfg.username && String.mk b == cfg.password) := by
                simp [is_accessible, h0, hsp, hb, hd, hcol]
              have hchar := (splitFirst_eq_some_iff ':' decoded.data a b).mp hcc
              rw [hacc]
              constructor
              · intro htrue
                simp only [Bool.and_eq_true, beq_iff_eq] at htrue
                exact ⟨h, scheme, creds, decoded, rfl, hsp, hb, hd, a, b,
                  hchar.2, hchar.1, htrue.1, htrue.2⟩
              · rintro ⟨h', s', c', d', hh, hsp', hb', hd', u, p, hu, hdata, hun, hpw⟩
                injection hh with hh; subst hh
                rw [hsp] at hsp'; injection hsp' with hsp'; injection hsp' with h1 h2
                subst h1; subst h2
                rw [hd] at hd'; injection hd' with hd'; subst hd'
                have h3 := (splitFirst_eq_some_iff ':' decoded.data u p).mpr ⟨hdata, hu⟩
                rw [hcc] at h3
                injection h3 with h3; injection h3 with h4 h5
                subst h4; subst h5
                simp only [Bool.and_eq_true, beq_iff_eq]
                exact ⟨hun, hpw⟩
        · have hacc : is_accessible cfg (some h) = false := by
            simp [is_accessible, h0, hsp, hb]
          rw [hacc]
          constructor
          · intro hfalse; exact absurd hfalse (by simp)
          · rintro ⟨h', s', c', d', hh, hsp', hb', -⟩
            exfalso
            injection hh with hh; subst hh
            rw [hsp] at hsp'; injection hsp' with hsp'; injection hsp' with h1 h2
            subst h1
            exact hb hb'

/-- Sanity check of the credential pipeline on concrete data:
`dXNlcjpwYXNz` is the base64 encoding of `user:pass`. -/
theorem admin_auth_example :
    is_accessible ⟨"user", "pass"⟩ (some "Basic dXNlcjpwYXNz") = true ∧
    is_accessible ⟨"user", "pass"⟩ (some "Basic dXNlcjpwYXNa") = false ∧
    is_accessible ⟨"user", "pass"⟩ (some "Bearer dXNlcjpwYXNz") = false ∧
    is_accessible ⟨"user", "pass"⟩ (some "Basic") = false ∧
    is_accessible ⟨"user", "pass"⟩ (some "Basic !!!") = false ∧
    is_accessible ⟨"user", "pass"⟩ none = false := by
  decide

end MonsterApp
